import Mathlib

/-!
Verification of the uv2nix_hammer override rule engine, merge/codegen layer and
build-retry orchestrator, shallowly embedded from the Python sources
(src/uv2nix_hammer/__init__.py, rules.py, nix_format.py, helpers.py).

External effects (pypi lookups, archive extraction, the nix build itself) are
modelled as explicit parameters; everything else is translated directly from
the source.
-/

set_option maxRecDepth 1000000

/-! ## Generic string and list helpers (Python primitives) -/

/-- Is `pat` a contiguous sublist of the argument? -/
def listIsInfixOf (pat : List Char) : List Char → Bool
  | [] => pat.isEmpty
  | c :: t => pat.isPrefixOf (c :: t) || listIsInfixOf pat t

/-- Python `needle in hay` for strings: substring containment. -/
def strContains (hay needle : String) : Bool :=
  listIsInfixOf needle.data hay.data

/-- Python `s.startswith(pre)`. -/
def strStartsWith (s pre : String) : Bool :=
  pre.data.isPrefixOf s.data

/-- Python `s[n:]`. -/
def strDrop (s : String) (n : Nat) : String :=
  ⟨s.data.drop n⟩

/-- Position of the first occurrence of `pat` in `hay` (Python `hay.find(pat)`;
call sites guard with `in`, so the not-found value is never used). -/
def listIndexOfInfix (pat : List Char) : List Char → Nat
  | [] => 0
  | c :: t => if pat.isPrefixOf (c :: t) then 0 else 1 + listIndexOfInfix pat t

/-- Python `s.find(pat)` (for call sites that already checked `pat in s`). -/
def strIndexOf (s pat : String) : Nat :=
  listIndexOfInfix pat.data s.data

/-- Python `s.replace(pat, rep)`: left-to-right, non-overlapping. -/
def pyReplaceL (pat rep : List Char) (l : List Char) : List Char :=
  match l with
  | [] => []
  | c :: rest =>
    if pat ≠ [] ∧ pat.isPrefixOf (c :: rest)
    then rep ++ pyReplaceL pat rep (rest.drop (pat.length - 1))
    else c :: pyReplaceL pat rep rest
termination_by l.length
decreasing_by
  all_goals simp
  omega

/-- Code-point lexicographic `≤` on char lists (Python string comparison). -/
def listCharLe : List Char → List Char → Bool
  | [], _ => true
  | _ :: _, [] => false
  | a :: as, b :: bs =>
    if a.toNat < b.toNat then true
    else if b.toNat < a.toNat then false
    else listCharLe as bs

/-- Python `a <= b` on strings. -/
def strLeB (a b : String) : Bool :=
  listCharLe a.data b.data

/-- Insert into an ascending list (helper for `sortedSet`). -/
def insertSorted (x : String) : List String → List String
  | [] => [x]
  | y :: ys => if strLeB x y then x :: y :: ys else y :: insertSorted x ys

/-- Ascending insertion sort on strings (Python `sorted` on a string set). -/
def sortStr (l : List String) : List String :=
  l.foldr insertSorted []

/-- Duplicate removal keeping first occurrences (Python `set` membership,
order later normalised by sorting). -/
def dedupFirstAux (seen : List String) : List String → List String
  | [] => []
  | x :: xs =>
    if seen.contains x then dedupFirstAux seen xs
    else x :: dedupFirstAux (seen ++ [x]) xs

/-- Duplicate removal keeping first occurrences. -/
def dedupFirst (l : List String) : List String :=
  dedupFirstAux [] l

/-- Python `sorted(set(l))`: the ascending duplicate-free enumeration. -/
def sortedSet (l : List String) : List String :=
  sortStr (dedupFirst l)

/-- Python set `s.add(x)` on an insertion-ordered set model. -/
def setInsert (s : List String) (x : String) : List String :=
  if s.contains x then s else s ++ [x]

/-- Python set `s.update(xs)`. -/
def setUpdate (s : List String) (xs : List String) : List String :=
  xs.foldl setInsert s

/-- Split a char list on a single-character separator (Python `s.split(c)`
for a one-character separator; empty segments are kept). -/
def splitOnCharAux (c : Char) (cur : List Char) : List Char → List (List Char)
  | [] => [cur.reverse]
  | x :: xs =>
    if x = c then cur.reverse :: splitOnCharAux c [] xs
    else splitOnCharAux c (x :: cur) xs

/-- Python `s.split(c)` for a single-character separator. -/
def strSplitOnChar (s : String) (c : Char) : List String :=
  (splitOnCharAux c [] s.data).map (fun l => ⟨l⟩)

/-- Python `sep.join(parts)`. -/
def joinSep (sep : String) : List String → String
  | [] => ""
  | [x] => x
  | x :: y :: xs => x ++ sep ++ joinSep sep (y :: xs)

/-- Python `s[:-n]`. -/
def strDropRight (s : String) (n : Nat) : String :=
  ⟨s.data.take (s.data.length - n)⟩

/-- Python dict `d[k] = v`: replace in place, else append (insertion order). -/
def assocSet {α : Type} : List (String × α) → String → α → List (String × α)
  | [], k, v => [(k, v)]
  | (k', v') :: rest, k, v =>
    if k' = k then (k, v) :: rest else (k', v') :: assocSet rest k v

/-! ## nix_format.py -/

/-- nix_format.py `nix_path`: tag a string as a relative path reference. -/
def nix_path (path : String) : String :=
  "~path~:!:" ++ path

/-- nix_format.py `nix_literal`: tag a string as raw nix code. -/
def nix_literal (path : String) : String :=
  "~literal:!:" ++ path

/-- nix_format.py `wrapped_nix_literal`. -/
def wrapped_nix_literal (path : String) : String :=
  "~literal:!:(" ++ path ++ ")"

/-- nix_format.py `nix_format`, the `isinstance(value, str)` arm (the branch
exercised by the marker claims; the remaining arms recurse on lists/dicts and
are not involved in string rendering). -/
def nix_format_str (value : String) : String :=
  if strStartsWith value "~path~:!:" then "./" ++ strDrop value 8
  else if strStartsWith value "~literal:!:" then strDrop value 11
  else if strContains value "\n" then
    "''" ++ (⟨pyReplaceL "''".data "'''".data value.data⟩ : String) ++ "''"
  else
    "\"" ++ (⟨pyReplaceL "\"".data "\\\"".data value.data⟩ : String) ++ "\""

/-! ## helpers.py -/

/-- helpers.py `drv_to_pkg_and_version`: split a /nix/store path into
(package, version): drop ".drv", split the basename on "-", version is the
last part, package joins the middle parts. -/
def drv_to_pkg_and_version (drv : String) : String × String :=
  let nix_name := strDropRight ((strSplitOnChar drv '/').getLastD "") 4
  let parts := strSplitOnChar nix_name '-'
  (joinSep "-" ((parts.drop 1).dropLast), parts.getLastD "")

/-! ## rules.py: BuildSystems -/

/-- Cut a char list at the first occurrence of `c` (Python
`bs[:bs.index(char)]` guarded by `char in bs`). -/
def cutAtChar (c : Char) (l : List Char) : List Char :=
  if l.contains c then l.takeWhile (fun x => x ≠ c) else l

/-- rules.py `BuildSystems.normalize_build_system`: truncate at each of
`>;<=[~`, replace `_` by `-`, lowercase, strip. -/
def normalize_build_system (bs : String) : String :=
  let cut := (">;<=[~".data).foldl (fun acc c => cutAtChar c acc) bs.data
  (String.mk ((cut.map (fun c => if c = '_' then '-' else c)).map Char.toLower)).trim

/-- Conditional append (Python `if cond: opts.append(x)` and friends). -/
def appIf (c : Bool) (xs : List String) (l : List String) : List String :=
  if c then l ++ xs else l

/-- rules.py lines 42-83: prior-value handling of `BuildSystems.match`.
`relOldCutoff` stands for the external pypi lookup
`get_release_date(pkg, version) < datetime(2023, 7, 17)`; `pyproject` for the
external archive read of `pyproject.toml`'s `build-system.requires`
(`none` models KeyError/ValueError: no such file, or a wheel). -/
def bs_init (drv_log : String) (relOldCutoff : Bool)
    (pyproject : Option (List String)) (prior : Option (List String)) :
    List String :=
  match prior with
  | some opts =>
    if !opts.isEmpty && opts.contains "cython" &&
        (relOldCutoff || strContains drv_log "Cython.Compiler.Errors.CompileError:"
          || strContains drv_log "Cython<3,>=0.29.16")
    then (opts.erase "cython") ++ ["cython_0"]
    else opts
  | none =>
    match pyproject with
    | some reqs => dedupFirst (reqs.map normalize_build_system)
    | none => []

/-- rules.py lines 84-91: setuptools / pip hints (appends guarded by
membership). -/
def bs_setuptools_pip (drv_log : String) (opts : List String) : List String :=
  let opts :=
    if (strContains drv_log "No module named 'setuptools'"
        || strContains drv_log "Cannot import 'setuptools.build_meta'")
       && !opts.contains "setuptools"
    then opts ++ ["setuptools"] else opts
  if strContains drv_log "No module named pip" && !opts.contains "pip"
  then opts ++ ["pip"] else opts

/-- rules.py lines 92-95: failing cythonize swaps cython for cython_0. -/
def bs_cythonize_failed (drv_log : String) (opts : List String) : List String :=
  if strContains drv_log "RuntimeError: Running cythonize failed!"
     && opts.contains "cython"
  then (opts.erase "cython") ++ ["cython_0"]
  else opts

/-- rules.py lines 96-162: the `Missing dependencies:` block. -/
def bs_missing_deps (drv_log : String) (opts : List String) : List String :=
  if strContains drv_log "Missing dependencies:" then
    let from_here := strDrop drv_log (strIndexOf drv_log "Missing dependencies:")
    let lines := (strSplitOnChar from_here '\n').map String.trim
    let opts := appIf (lines.contains "setuptools-scm" || lines.contains "setuptools_scm") ["setuptools-scm"] opts
    let opts := appIf (lines.contains "setuptools-git" || lines.contains "setuptools_git") ["setuptools-git"] opts
    let opts := appIf (strContains from_here "pytest-runner") ["pytest-runner"] opts
    let opts := appIf (lines.contains "pycodestyle") ["pycodestyle"] opts
    let opts := appIf (lines.contains "isort") ["isort"] opts
    let opts :=
      if strContains from_here "Cython<3,>=0.29.22" || strContains from_here "cython<=3" then opts ++ ["cython_0"]
      else if strContains from_here "cython>=3" then opts ++ ["cython"]
      else if lines.contains "cython" || lines.contains "Cython"
              || strContains from_here "Cython>=" || strContains from_here "cython>=" then opts ++ ["cython"]
      else opts
    let opts := appIf (lines.contains "pip") ["pip"] opts
    let opts := appIf (lines.contains "pbr") ["pbr"] opts
    let opts := appIf (strContains from_here "cffi") ["cffi"] opts
    let opts := appIf (lines.contains "numpy" || strContains from_here "numpy;"
      || strContains from_here "numpy>" || strContains from_here "numpy=") ["numpy"] opts
    let opts := appIf (lines.contains "wheel") ["wheel"] opts
    let opts := appIf (lines.contains "torch") ["torch"] opts
    let opts := appIf (lines.contains "ninja") ["ninja"] opts
    let opts := appIf (lines.contains "requests") ["requests"] opts
    let opts := appIf (strContains from_here "pbr>") ["pbr"] opts
    let opts := appIf (strContains from_here "certifi>") ["certifi"] opts
    let opts := appIf (strContains from_here "versiontools>") ["versiontools"] opts
    let opts := appIf (strContains from_here "fastrlock") ["fastrlock"] opts
    let opts := appIf (strContains from_here "vcversioner") ["vcversioner"] opts
    let opts := appIf (lines.contains "flake8") ["flake8"] opts
    let opts := appIf (lines.contains "versioneer") ["versioneer"] opts
    let opts := appIf (lines.contains "pytest-benchmark") ["pytest-benchmark"] opts
    appIf (lines.contains "sphinx") ["sphinx"] opts
  else opts

/-- rules.py lines 163-198: module-not-found hints. -/
def bs_module_hints (drv_log : String) (opts : List String) : List String :=
  let opts := appIf (strContains drv_log "cppyy-cling") ["cppyy-cling"] opts
  let opts := appIf (strContains drv_log "cppyy-backend") ["cppyy-backend"] opts
  let opts := appIf (strContains drv_log "ModuleNotFoundError: No module named 'numpy'"
    || strContains drv_log "install requires: 'numpy'"
    || strContains drv_log "pip install numpy") ["numpy"] opts
  let opts := appIf (strContains drv_log "ModuleNotFoundError: No module named 'pandas'") ["pandas"] opts
  let opts := appIf (strContains drv_log "ModuleNotFoundError: No module named 'convertdate'") ["convertdate"] opts
  let opts := appIf (strContains drv_log "ModuleNotFoundError: No module named 'lunarcalendar'") ["lunarcalendar"] opts
  let opts := appIf (strContains drv_log "ModuleNotFoundError: No module named 'holidays'") ["holidays"] opts
  let opts := appIf (strContains drv_log "ModuleNotFoundError: No module named 'toml'") ["toml"] opts
  let opts := appIf (strContains drv_log "ModuleNotFoundError: No module named 'cffi'") ["cffi"] opts
  let opts := appIf (strContains drv_log "ModuleNotFoundError: No module named 'pygments'") ["pygments"] opts
  let opts :=
    if strContains drv_log "No module named 'pybind11'" && !opts.contains "pybind11"
    then opts ++ ["pybind11"] else opts
  let opts := appIf (strContains drv_log "ModuleNotFoundError: No module named 'fil3s'") ["fil3s"] opts
  let opts := appIf (strContains drv_log "No matching distribution found for matplotlib") ["matplotlib"] opts
  appIf (strContains drv_log "ModuleNotFoundError: No module named 'Cython'") ["cython"] opts

/-- rules.py line 199: a package never lists itself as its build system. -/
def bs_drop_self (pkg : String) (opts : List String) : List String :=
  opts.filter (fun x => x ≠ pkg)

/-- rules.py lines 201-211: late cython detection when no cython decided yet. -/
def bs_late_cython (drv_log : String) (opts : List String) : List String :=
  if !opts.contains "cython" && !opts.contains "cython_0" then
    if strContains drv_log "Cython.Compiler.Errors.CompileError:"
       || strContains drv_log " No matching distribution found for cython"
    then opts ++ ["cython"]
    else if strContains drv_log "error: ‘PyThreadState’ \x7baka ‘struct _ts’\x7d has no member named ‘exc_traceback’; did you mean ‘curexc_traceback’?"
    then opts ++ ["cython"]
    else opts
  else opts

/-- rules.py lines 213-232: sort/dedup, poetry rewrite, cython_0 preference
(the while loop removes every "cython" while "cython_0" is present), pybind11
and cmake hints, and the filtered build-system blocklist. -/
def bs_finalize (drv_log : String) (opts : List String) : List String :=
  let opts := sortedSet opts
  let opts := if opts.contains "poetry" then (opts.erase "poetry") ++ ["poetry-core"] else opts
  let opts :=
    if opts.contains "cython" && opts.contains "cython_0"
    then opts.filter (fun x => x ≠ "cython") else opts
  let opts := appIf (strContains drv_log "could not find git for clone of pybind11-populate"
    || strContains drv_log "pybind11Config.cmake") ["pybind11"] opts
  let opts := appIf (strContains drv_log "No such file or directory: 'cmake'") ["cmake"] opts
  opts.filter (fun x =>
    !(["hatch-docstring-description", "setuptools-scm-git-archive", "maturin"].contains x))

/-- rules.py `BuildSystems.match` (lines 39-235), composed from the staged
pieces above. -/
def BuildSystems_match (drv drv_log : String) (relOldCutoff : Bool)
    (pyproject : Option (List String)) (prior : Option (List String)) :
    List String :=
  let pkg := (drv_to_pkg_and_version drv).1
  bs_finalize drv_log
    (bs_late_cython drv_log
      (bs_drop_self pkg
        (bs_module_hints drv_log
          (bs_missing_deps drv_log
            (bs_cythonize_failed drv_log
              (bs_setuptools_pip drv_log
                (bs_init drv_log relOldCutoff pyproject prior)))))))

/-! ## rules.py: NativeBuildInputs -/

/-- rules.py `NativeBuildInputs.match`'s inner `add_pkgs`: literal-marked
entries pass through unmarked; dotted names stay as-is unless they look like
`.dev` outputs or cudaPackages; plain names get a `pkgs.` namespace. -/
def nbi_add_pkgs (x : String) : String :=
  if strStartsWith x "~literal:!" then strDrop x 11
  else
    let do_add := !strContains x "." || strContains x ".dev" || strContains x "cudaPackages."
    let do_add := if strStartsWith x "pkgs" then false else do_add
    if do_add then "pkgs." ++ x else x

/-- rules.py `NativeBuildInputs.match` pattern table (lines 311-453).
Scalar right-hand sides of the source are stored as singleton lists, matching
the `if not isinstance(vs, list): vs = [vs]` normalisation at the use site. -/
def nbi_table : List (String × List String) := [
  ("No such file or directory: 'gfortran'", ["gfortran"]),
  ("configure: error: No fortran compiler found, please set the FC flag", ["gfortran"]),
  ("but no Fortran compiler found", ["gfortran"]),
  ("No CMAKE_Fortran_COMPILER could be found.", ["gfortran"]),
  ("Did not find pkg-config", ["pkg-config"]),
  ("pkgconfig", ["pkg-config"]),
  ("pkg-config not found", ["pkg-config"]),
  ("'pkg-config' is required", ["pkg-config"]),
  ("pkg-config: not found", ["pkg-config"]),
  ("cannot execute pkg-config", ["pkg-config"]),
  ("Install pkg-config.", ["pkg-config"]),
  ("missing: PKG_CONFIG_EXECUTABLE", ["pkg-config"]),
  ("No such file or directory: 'pkg-config'", ["pkg-config"]),
  ("The headers or library files could not be found for zlib", ["zlib.dev", "pkg-config"]),
  ("zlib.h: No such file or directory", ["zlib.dev", "pkg-config"]),
  ("pkg-config is required for building", ["pkg-config"]),
  ("\"pkg-config\" command could not be found.", ["pkg-config"]),
  ("CMake must be installed to build from source.", ["cmake"]),
  ("Did not find CMake 'cmake'", ["cmake"]),
  ("need to install CMake", ["cmake"]),
  ("Failed to install temporary CMake", ["cmake"]),
  ("CMake is not installed on your system!", ["cmake"]),
  ("Missing CMake executable", ["cmake"]),
  ("Cannot find CMake executable", ["cmake"]),
  ("checking for GTK+ - version >= 3.0.0... no", ["gtk3", "pkg-config"]),
  ("systemd/sd-daemon.h: No such file", ["pkg-config"]),
  ("cython<1.0.0,>=0.29", ["final.cython_0"]),
  ("ModuleNotFoundError: No module named 'mesonpy", ["meson"]),
  ("gobject-introspection-1.0 found: NO", ["gobject-introspection"]),
  ("did not manage to locate a library called 'augeas'", ["pkg-config"]),
  ("pkg-config: command not found", ["pkg-config"]),
  ("krb5-config", ["krb5"]),
  ("libpyvex.so -> not found!", ["final.pyvex"]),
  ("#include \"cairo.h\"", ["pkgs.cairo.dev", "pkg-config"]),
  ("Specify MYSQLCLIENT_CFLAGS and MYSQLCLIENT_LDFLAGS env vars manually", ["libmysqlclient"]),
  ("ModuleNotFoundError: No module named 'torch'", ["final.torch"]),
  ("ta_defs.h: No such file", ["ta-lib"]),
  ("Program 'swig' not found or not executable", ["swig"]),
  (" fatal error: ffi.h: No such file or directory", ["pkg-config"]),
  ("Unable to locate bz2 library needed when enabling bzip2 support", ["bzip2.dev", "pkg-config"]),
  ("bzlib.h: No such file or directory", ["bzip2.dev", "pkg-config"]),
  ("gmp.h: No such file or directory", ["pkg-config", "gmp.dev"]),
  ("ModuleNotFoundError: No module named 'pip'", ["final.pip"]),
  ("Could not run curl-config", ["curl"]),
  ("do you have the `libxml2` development package installed?", ["libxml2"]),
  ("cannot get XMLSec1", ["pkgs.xmlsec.out"]),
  ("Can not locate liberasurecode.so.1", ["pkgs.liberasurecode.dev"]),
  ("Error finding javahome on linux", ["pkgs.openjdk"]),
  ("cuda.h: No such file", ["cudaPackages.cuda_cudart"]),
  ("sndfile.h: No such file", ["pkgs.libsndfile.dev", "pkg-config"]),
  ("No such file or directory: 'gdal-config'", ["gdal"]),
  ("No such file or directory: 'which'", ["which"]),
  ("which: not found", ["which"]),
  ("#include <xc.h>", ["libxc"]),
  ("#include <notmuch.h>", ["notmuch"]),
  ("#include <xkbcommon/xkbcommon.h>", ["pkgs.libxkbcommon.out", "pkgs.libxkbcommon.dev", "pkg-config"]),
  ("cannot find -lvapoursynth", ["vapoursynth"]),
  ("PyAPI_FUNC(PyCodeObject *) PyCode_New(", ["final.cython_0"]),
  ("pcap.h: No such file", ["libpcap"]),
  ("lzo1.h: No such file", ["lzo"]),
  ("glib.h: No such file", ["pkgs.glib.dev", "pkg-config"]),
  ("jpeglib.h: No such file", ["libjpeg"]),
  ("png.h: No such file", ["libpng"]),
  ("tiffio.h: No such file", ["libtiff"]),
  ("unrar/dll.hpp: No such", ["unrar"]),
  ("iwlib.h: No such file", ["wirelesstools"]),
  ("command 'swig' failed: No such file or directory", ["swig"]),
  ("Boost Python3 library not found",
    ["~literal:!:(pkgs.boost.override \x7bpython = final.python; numpy=final.numpy; enablePython=true;\x7d)"]),
  ("Could NOT find GLIB2", ["glib"]),
  ("No package 'gfal2' found", ["gfal2"]),
  ("Package 'libpcre2-8', required by 'glib-2.0', not found", ["pcre2"]),
  ("mpfr.h: No such file", ["mpfr"]),
  ("fplll/fplll_config.h: No such file", ["fplll_20160331"]),
  ("OSError: mariadb_config not found.", ["libmysqlclient"]),
  ("mpi.h: No such file", ["mpi"]),
  ("autoreconf: not found", ["autoconf"]),
  ("No such file or directory: 'autoreconf'", ["autoconf"]),
  ("Can't exec \"libtoolize\"", ["libtool"]),
  ("Can't exec \"aclocal\"", ["automake"]),
  ("Libtool library used but 'LIBTOOL'", ["libtool"]),
  ("glpk.h: No such file", ["glpk"]),
  ("could not start gsl-config", ["gsl.dev"]),
  ("openssl/ssl.h: No such file", ["openssl"]),
  (" openssl/aes.h: No such file", ["openssl"]),
  ("sqlite3.h: No such file", ["sqlite"]),
  ("winscard.h: No such file", ["pcsclite"]),
  ("hunspell.hxx: No such file", ["hunspell.dev"]),
  ("re2/re2.h: No such file", ["re2"]),
  ("Eigen/Core: No such file", ["eigen"]),
  ("No package 'ddjvuapi' found", ["djvulibre"]),
  ("libmilter/mfapi.h: No such file", ["libmilter"]),
  ("Error: pg_config executable not found.", ["postgresql.dev"]),
  ("cudaProfiler.h: No such", ["cudaPackages.cuda_profiler_api"]),
  ("curand.h: No such file", ["cudaPackages.libcurand"]),
  ("crt/host_config.h: No such file", ["cudaPackages.cuda_nvcc"]),
  ("exiv2/exiv2.hpp: No such fil", ["exiv2"]),
  ("boost/python.hpp: No such file",
    ["(pkgs.boost.override \x7bpython = final.python; numpy=final.numpy; enablePython=true;\x7d)"]),
  ("libxml/xmlreader.h: No such file or directory", ["libxml2.dev"]),
  ("Could NOT find ZLIB", ["pkgs.zlib.dev"])]

/-- One table entry of the `NativeBuildInputs.match` scan: append the
namespaced, `nix_literal`-tagged packages of a matching pattern. -/
def nbi_step (drv_log : String) (acc : List String)
    (qvs : String × List String) : List String :=
  acc ++ (if strContains drv_log qvs.1
          then qvs.2.map (fun x => nix_literal (nbi_add_pkgs x))
          else [])

/-- rules.py `NativeBuildInputs.match` (lines 294-461, composed of the table
scan above followed by `sorted(set(...))`). -/
def NativeBuildInputs_match (_drv drv_log : String)
    (prior : Option (List String)) : List String :=
  sortedSet (nbi_table.foldl (nbi_step drv_log) (prior.getD []))

/-! ## __init__.py: write_combined_rules merge engine -/

/-- Scalar values appearing inside attrset-part dictionaries (env maps hold
strings, literal-marked strings, or booleans in the source rules). -/
inductive PrimValue
  | str (s : String)
  | bool (b : Bool)
deriving DecidableEq, Repr

/-- Values of attrset-part keys as produced by the rules: strings (plain or
literal-marked), booleans, lists of (marker-)strings, and flat string-keyed
dictionaries such as `env`. -/
inductive AttrValue
  | str (s : String)
  | bool (b : Bool)
  | list (xs : List String)
  | dict (m : List (String × PrimValue))
deriving DecidableEq, Repr

/-- Python truthiness for the values above (`not dest[k]`). -/
def pyFalsy : AttrValue → Bool
  | .str s => s.isEmpty
  | .bool b => !b
  | .list xs => xs.isEmpty
  | .dict m => m.isEmpty

def isDict : AttrValue → Bool
  | .dict _ => true
  | _ => false

/-- Python `==` on the values above. Dict comparison is key-based and
order-insensitive, as in Python (the dicts built by the rules have distinct
keys). -/
def pyEqAttr (a b : AttrValue) : Bool :=
  match a, b with
  | .dict m₁, .dict m₂ =>
    m₁.length == m₂.length && m₁.all (fun kv => m₂.lookup kv.1 == some kv.2)
  | x, y => x == y

/-- Python `dest.get(k)` on an attrset-part dictionary. -/
def assocGet (m : List (String × AttrValue)) (k : String) : Option AttrValue :=
  m.lookup k

/-- The dep-constraint / attrset merge can fail with a ValueError or trigger
the NeedsExclusion control signal. -/
inductive MergeErr
  | valueError (msg : String)
  | needsExclusion (reason : String)
deriving DecidableEq, Repr

deriving instance DecidableEq for Except

/-- The accumulation-key strategy of `write_combined_rules` line 413:
`dest[k] = sorted(set(dest.get(k, []) + v))`. -/
def accumStep (cur v : List String) : List String :=
  sortedSet (cur ++ v)

/-- One `for k, v in src.items()` step of `write_combined_rules`
(lines 406-421): textual hook keys append (seeded with the `old.<k> or ""`
literal), accumulation keys take the sorted set union, any other key is
first-writer-wins except that equal values and dicts overwriting a falsy
stored value are accepted; everything else is a hard ValueError. -/
def mergeOneAttr (dest : List (String × AttrValue)) (k : String)
    (v : AttrValue) : Except MergeErr (List (String × AttrValue)) :=
  if k = "postPatch" ∨ k = "preBuild" ∨ k = "preConfigure" then
    match v with
    | .str s =>
      let cur := match assocGet dest k with
        | none => [nix_literal ("old." ++ k ++ " or \"\"")]
        | some (.list xs) => xs
        | some _ => []
      .ok (assocSet dest k (.list (if cur.contains s then cur else cur ++ [s])))
    | _ => .error (.valueError "unreachable: hook key holds a non-string value")
  else if k = "nativeBuildInputs" ∨ k = "buildInputs" then
    match v with
    | .list xs =>
      let cur := match assocGet dest k with
        | some (.list ys) => ys
        | _ => []
      .ok (assocSet dest k (.list (accumStep cur xs)))
    | _ => .error (.valueError "unreachable: accumulation key holds a non-list value")
  else
    match assocGet dest k with
    | none => .ok (assocSet dest k v)
    | some w =>
      if (isDict v && pyFalsy w) || pyEqAttr w v then .ok (assocSet dest k v)
      else .error (.valueError ("Think up a merge strategy for " ++ k))

/-- Merge one rule's attrset parts into a destination, key by key in source
order. -/
def mergeAttrset (dest : List (String × AttrValue))
    (src : List (String × AttrValue)) :
    Except MergeErr (List (String × AttrValue)) :=
  src.foldlM (fun d kv => mergeOneAttr d kv.1 kv.2) dest

/-- `write_combined_rules` lines 427-431: a second, different constraint for
the same dependency name is a hard error. -/
def mergeDepConstraints (acc : List (String × String))
    (items : List (String × String)) :
    Except MergeErr (List (String × String)) :=
  items.foldlM
    (fun a kv =>
      if (a.lookup kv.1).isSome && a.lookup kv.1 != some kv.2
      then .error (.valueError "Dep conflict, think up a merge strategy")
      else .ok (assocSet a kv.1 kv.2))
    acc

/-- helpers.py `RuleOutput` (defaults mirror the Python keyword defaults). -/
structure RuleOutput where
  build_systems : Option (List String) := none
  arguments : List String := []
  src_attrset_parts : List (String × AttrValue) := []
  wheel_attrset_parts : List (String × AttrValue) := []
  requires_nixpkgs_master : Bool := false
  dep_constraints : Option (List (String × String)) := none
  python_downgrade : Option String := none
deriving DecidableEq, Repr

/-- The four shapes a rule's `apply` can return (helpers.py classes
`RuleOutput`, `RuleFunctionOutput`, `RuleOutputTriggerExclusion`,
`RuleOutputCopyFile`). -/
inductive RuleApplied
  | output (o : RuleOutput)
  | functionOutput (inner : String) (args : List String)
  | triggerExclusion (reason : String)
  | copyFiles (files : List String)
deriving DecidableEq, Repr

/-- Accumulator state of the `write_combined_rules` loop (lines 366-374). -/
structure MergeState where
  function_arguments : List String := []
  src_attrset_parts : List (String × AttrValue) := []
  wheel_attrset_parts : List (String × AttrValue) := []
  pkg_build_systems : List String := []
  further_funcs : List String := []
  requires_nixpkgs_master : Bool := false
  dep_constraints : List (String × String) := []
  python_downgrade : Option String := none
deriving DecidableEq, Repr

/-- One iteration of the `for rule_name in rules_to_combine.keys()` loop of
`write_combined_rules` (lines 377-442); copying auxiliary files is pure IO
and leaves the merge state unchanged. -/
def applyOneRule (st : MergeState) (r : RuleApplied) :
    Except MergeErr MergeState :=
  match r with
  | .functionOutput inner args =>
    let fa := setInsert st.function_arguments "pkgs"
    let fa := ["pkgs", "prev", "final", "helpers"].foldl
      (fun a arg => if strContains inner (arg ++ ".") then setInsert a arg else a) fa
    let fa := setUpdate fa args
    .ok { st with function_arguments := fa,
                  further_funcs := st.further_funcs ++ ["old: " ++ inner] }
  | .triggerExclusion reason => .error (.needsExclusion reason)
  | .copyFiles _ => .ok st
  | .output o => do
    let st := if (o.build_systems.getD []).isEmpty then st
      else { st with pkg_build_systems := setUpdate st.pkg_build_systems (o.build_systems.getD []) }
    let st := { st with function_arguments := setUpdate st.function_arguments o.arguments }
    let st := if o.src_attrset_parts.isEmpty && o.wheel_attrset_parts.isEmpty then st
      else { st with function_arguments := setInsert st.function_arguments "helpers" }
    let src' ← mergeAttrset st.src_attrset_parts o.src_attrset_parts
    let wheel' ← mergeAttrset st.wheel_attrset_parts o.wheel_attrset_parts
    let st := { st with src_attrset_parts := src', wheel_attrset_parts := wheel' }
    let st := if o.requires_nixpkgs_master then { st with requires_nixpkgs_master := true } else st
    let deps' ← if (o.dep_constraints.getD []).isEmpty then pure st.dep_constraints
      else mergeDepConstraints st.dep_constraints (o.dep_constraints.getD [])
    let st := { st with dep_constraints := deps' }
    match o.python_downgrade with
    | none => .ok st
    | some pd =>
      if pd.isEmpty then .ok st
      else if st.python_downgrade.isSome && st.python_downgrade != some pd
      then .error (.valueError "Conflicting python downgrades")
      else .ok { st with python_downgrade := some pd }

/-- The merge loop of `write_combined_rules` (lines 361-442) over the applied
outputs of all recorded rules, in the (key-sorted) iteration order used by
`write_rules`. The later rendering (lines 444-551) is pure formatting of the
returned state. -/
def write_combined_rules_core (items : List RuleApplied) :
    Except MergeErr MergeState :=
  items.foldlM applyOneRule {}

/-! ## rules.py: the two `apply` renderers exercised by the merge claims -/

/-- rules.py `HomlessShelter.apply`. -/
def HomlessShelter_apply : RuleOutput :=
  { src_attrset_parts := [("env", .dict [("HOME", .str "/tmp")])] }

/-- rules.py `BuildInputs.apply` (lines 687-727). -/
def BuildInputs_apply (opts : List String) : RuleOutput :=
  let env : List (String × PrimValue) :=
    if opts.contains "pkgs.slurm" then
      [("SLURM_LIB_DIR", .str "$\x7blib.getLib slurm\x7d/lib"),
       ("SLURM_INCLUDE_DIR", .str "$\x7blib.getDev slurm\x7d/include")]
    else []
  let needs_master := opts.contains (nix_literal "pkgs.cudaPackages.cudnn")
  let start : String × List String := ("", ["pkgs"])
  let fixupsArgs := opts.foldl
    (fun acc pkg =>
      let acc :=
        if strStartsWith pkg "~literal:!:final." then
          let pkg_str := strDrop pkg 17
          let f :=
            if ["eigenpy"].contains pkg_str then
              "addAutoPatchelfSearchPath $\x7bfinal." ++ pkg_str ++
                "\x7d/$\x7bfinal.python.sitePackages\x7d/cmeel.prefix/$\x7bfinal.python.sitePackages\x7d\n"
            else
              "addAutoPatchelfSearchPath $\x7bfinal." ++ pkg_str ++
                "\x7d/$\x7bfinal.python.sitePackages\x7d/" ++ pkg_str ++ "/lib\n"
          (acc.1 ++ f, setInsert acc.2 "final")
        else acc
      let acc :=
        if pkg = "~literal:!:pkgs.openjdk" then
          (acc.1 ++ "addAutoPatchelfSearchPath $\x7bpkgs.openjdk\x7d/lib/openjdk/lib/server/\n", acc.2)
        else acc
      if strContains pkg "final." then (acc.1, setInsert acc.2 "final") else acc)
    start
  let fixups := fixupsArgs.1
  let src_attr_parts : List (String × AttrValue) :=
    [("buildInputs", .list opts), ("env", .dict env)]
  let wheel_attr_parts : List (String × AttrValue) :=
    if fixups.isEmpty then [("buildInputs", .list opts)]
    else [("buildInputs", .list opts), ("preFixup", .str fixups)]
  { arguments := sortedSet fixupsArgs.2,
    src_attrset_parts := src_attr_parts,
    wheel_attrset_parts := wheel_attr_parts,
    requires_nixpkgs_master := needs_master }

/-! ## Persisted rule state: toml round trip (write_rules / load_existing_rules) -/

/-- Scalar values inside a persisted rule state: strings (including the
literal/path marker strings), booleans, and Python `None` (a Rust extract
result when no Cargo.lock patch was needed). -/
inductive TomlPrim
  | str (s : String)
  | bool (b : Bool)
  | pyNone
deriving DecidableEq, Repr

/-- The per-rule OptionValues persisted by `detect_rules`/`write_rules`:
scalars, lists, string-keyed tables, and the deferred-extraction marker - the
Python tuple `(decided_value, extract_result)` built at __init__.py
lines 644-653. -/
inductive OptionValue
  | prim (p : TomlPrim)
  | list (xs : List TomlPrim)
  | dict (m : List (String × TomlPrim))
  | pair (decided extractResult : TomlPrim)
deriving DecidableEq, Repr

/-- Net effect of the `toml` library's dump-then-load on a scalar: strings and
booleans survive; `None` has no TOML representation and is stringified by the
encoder's `str` fallback. -/
def tomlPrimRoundTrip : TomlPrim → TomlPrim
  | .str s => .str s
  | .bool b => .bool b
  | .pyNone => .str "None"

/-- Net effect of `toml.dump` (write_rules, line 693) followed by `toml.load`
(load_existing_rules, line 330) on one persisted value: scalars, lists and
tables are preserved, but the encoder serialises a Python tuple through its
iterable fallback as a TOML array, which loads back as a list. -/
def tomlValueRoundTrip : OptionValue → OptionValue
  | .prim p => .prim (tomlPrimRoundTrip p)
  | .list xs => .list (xs.map tomlPrimRoundTrip)
  | .dict m => .dict (m.map (fun kv => (kv.1, tomlPrimRoundTrip kv.2)))
  | .pair a b => .list [tomlPrimRoundTrip a, tomlPrimRoundTrip b]

/-- Round trip of a whole per-unit rule-state mapping (rule name to
OptionValue). -/
def rulesRoundTrip (state : List (String × OptionValue)) :
    List (String × OptionValue) :=
  state.map (fun kv => (kv.1, tomlValueRoundTrip kv.2))

def tomlPrimStable : TomlPrim → Bool
  | .pyNone => false
  | _ => true

/-- Values free of the shapes that the TOML encoding cannot represent
(`None` scalars and the tuple marker). -/
def tomlValueStable : OptionValue → Bool
  | .prim p => tomlPrimStable p
  | .list xs => xs.all tomlPrimStable
  | .dict m => m.all (fun kv => tomlPrimStable kv.2)
  | .pair _ _ => false

/-! ## __init__.py: load_failures -/

/-- Strip a literal token (regex building block). -/
def dropLit (pre l : List Char) : Option (List Char) :=
  if pre.isPrefixOf l then some (l.drop pre.length) else none

/-- The single-quote character closing the captured store path. -/
def quoteChar : Char := Char.ofNat 39

/-- Match the load_failures regex
`error: (?:builder for|Cannot build) '(/nix/store/[^']+)'(?:\.| failed)`
at the current position; on success return the captured store path and the
remaining input after the whole match. -/
def failureMatchAt (l : List Char) : Option (String × List Char) :=
  match (dropLit "error: builder for '".data l).orElse
      (fun _ => dropLit "error: Cannot build '".data l) with
  | none => none
  | some r₁ =>
    match dropLit "/nix/store/".data r₁ with
    | none => none
    | some r₂ =>
      let body := r₂.takeWhile (fun c => c ≠ quoteChar)
      if body.isEmpty then none
      else
        match r₂.drop body.length with
        | c :: r₄ =>
          if c ≠ quoteChar then none
          else
            match r₄ with
            | '.' :: r₅ => some (⟨"/nix/store/".data ++ body⟩, r₅)
            | _ =>
              match dropLit " failed".data r₄ with
              | some r₅ => some (⟨"/nix/store/".data ++ body⟩, r₅)
              | none => none
        | [] => none

/-- `re.findall` scan: try the pattern at every position, left to right,
non-overlapping (resuming after each match). Fuel is the input length, which
suffices since every step consumes at least one character. -/
def findFailureDrvs : Nat → List Char → List String
  | 0, _ => []
  | _ + 1, [] => []
  | fuel + 1, c :: rest =>
    match failureMatchAt (c :: rest) with
    | some (drv, remaining) => drv :: findFailureDrvs fuel remaining
    | none => findFailureDrvs fuel rest

/-- The store paths reported failing in a run log (__init__.py line 322). -/
def load_failure_drvs (raw : String) : List String :=
  findFailureDrvs raw.data.length raw.data

/-- Keys of the failure map returned by `load_failures` (line 323): reported
paths, minus any containing "test-venv", deduplicated in insertion order (the
per-path `nix log` lookup supplying the values is external). -/
def load_failures_keys (raw : String) : List String :=
  dedupFirst ((load_failure_drvs raw).filter (fun drv => !strContains drv "test-venv"))

/-! ## __init__.py: build-retry orchestrator (main, lines 987-1041) -/

def try_fix_recursion_msg : String :=
  "Pyproject.nix builders should no longer suffer from infinite recursion"

/-- __init__.py `try_to_fix_infinite_recursion` (lines 218-225): raises a
ValueError unconditionally - the lock graph argument is never inspected. -/
def try_to_fix_infinite_recursion (_lockGraph : List (String × String)) :
    Except String Unit :=
  .error try_fix_recursion_msg

/-- Classification of one `attempt_build` call (lines 232-301) together with
the result/rule-pass outcome of the loop body: the distinguished terminal
signals raise, otherwise the loop reads the `result` artifact and runs
`detect_rules` over the failures. -/
inductive AttemptOutcome
  | infiniteRecursion
  | addDependency (deps : List (String × String))
  | needsExclusion (reason : String)
  | fatalValueError
  | finished (resultExists anyApplied : Bool)
deriving DecidableEq, Repr

/-- How one run of the retry loop ends. -/
inductive LoopResult
  | success (attempt : Nat)
  | stuck (attempt : Nat)
  | exhausted
  | fatal (attempt : Nat)
  | excluded (reason : String) (attempt : Nat)
  | raised (msg : String) (attempt : Nat)
deriving DecidableEq, Repr

/-- __init__.py line 987. -/
def max_trials : Nat := 10

/-- The `while attempt_no < max_trials` loop of `main` (lines 994-1041).
`world` supplies the outcome of each attempt (a function of the external
build). An InfiniteRecursionError on attempt 0 calls
`try_to_fix_infinite_recursion`; the ValueError it raises escapes the inner
`except ValueError` (which only guards the `try` body, not the handler) and
aborts the loop via the outer generic handler. On later attempts it is
re-raised. An AddDependency signal mutates pyproject.toml and retries; any
other ValueError breaks the loop; otherwise success is the `result` artifact
and a pass with no rule change breaks out as stuck. -/
def mainLoop (lockGraph : List (String × String))
    (world : Nat → AttemptOutcome) (attempt_no : Nat) : LoopResult :=
  if _h : attempt_no < max_trials then
    match world attempt_no with
    | .infiniteRecursion =>
      if attempt_no = 0 then
        match try_to_fix_infinite_recursion lockGraph with
        | .error msg => .raised msg attempt_no
        | .ok _ => mainLoop lockGraph world (attempt_no + 1)
      else .raised "infinite recursion encountered" attempt_no
    | .addDependency _ => mainLoop lockGraph world (attempt_no + 1)
    | .needsExclusion r => .excluded r attempt_no
    | .fatalValueError => .fatal attempt_no
    | .finished true _ => .success attempt_no
    | .finished false anyApplied =>
      if anyApplied then mainLoop lockGraph world (attempt_no + 1)
      else .stuck attempt_no
  else .exhausted
termination_by max_trials - attempt_no
decreasing_by
  all_goals omega

/-- The three loop endings enumerated by the termination claim: success,
attempt bound, or a zero-change rule pass. -/
def isClaimedTermination : LoopResult → Bool
  | .success _ => true
  | .stuck _ => true
  | .exhausted => true
  | _ => false

/-! ## Lemma toolkit: the string order and `sortedSet` -/

theorem char_eq_of_toNat_eq {a b : Char} (h : a.toNat = b.toNat) : a = b := by
  apply Char.ext
  cases hv1 : a.val
  cases hv2 : b.val
  simp_all [Char.toNat, UInt32.toNat]
  congr 1
  exact BitVec.eq_of_toNat_eq (by simp_all)

theorem listCharLe_refl : ∀ (a : List Char), listCharLe a a = true
  | [] => by simp [listCharLe]
  | x :: xs => by simp [listCharLe, listCharLe_refl xs]

theorem listCharLe_total :
    ∀ (a b : List Char), listCharLe a b = true ∨ listCharLe b a = true
  | [], _ => by left; simp [listCharLe]
  | _ :: _, [] => by right; simp [listCharLe]
  | x :: xs, y :: ys => by
    simp only [listCharLe]
    by_cases hxy : x.toNat < y.toNat
    · left; rw [if_pos hxy]
    · by_cases hyx : y.toNat < x.toNat
      · right; rw [if_pos hyx]
      · rw [if_neg hxy, if_neg hyx, if_neg hyx, if_neg hxy]
        exact listCharLe_total xs ys

theorem listCharLe_antisymm :
    ∀ {a b : List Char}, listCharLe a b = true → listCharLe b a = true → a = b
  | [], [], _, _ => rfl
  | [], _ :: _, _, h₂ => by simp [listCharLe] at h₂
  | _ :: _, [], h₁, _ => by simp [listCharLe] at h₁
  | x :: xs, y :: ys, h₁, h₂ => by
    simp only [listCharLe] at h₁ h₂
    by_cases hxy : x.toNat < y.toNat
    · rw [if_neg (by omega), if_pos hxy] at h₂
      exact absurd h₂ (by simp)
    · by_cases hyx : y.toNat < x.toNat
      · rw [if_neg hxy, if_pos hyx] at h₁
        exact absurd h₁ (by simp)
      · rw [if_neg hxy, if_neg hyx] at h₁
        rw [if_neg hyx, if_neg hxy] at h₂
        have hx : x = y := char_eq_of_toNat_eq (by omega)
        rw [hx, listCharLe_antisymm h₁ h₂]

theorem listCharLe_trans :
    ∀ {a b c : List Char}, listCharLe a b = true → listCharLe b c = true →
      listCharLe a c = true
  | [], _, _, _, _ => by simp [listCharLe]
  | _ :: _, [], _, h₁, _ => by simp [listCharLe] at h₁
  | _ :: _, _ :: _, [], _, h₂ => by simp [listCharLe] at h₂
  | x :: xs, y :: ys, z :: zs, h₁, h₂ => by
    simp only [listCharLe] at h₁ h₂ ⊢
    by_cases hxy : x.toNat < y.toNat
    · by_cases hyz : y.toNat < z.toNat
      · rw [if_pos (by omega)]
      · by_cases hzy : z.toNat < y.toNat
        · rw [if_neg hyz, if_pos hzy] at h₂
          exact absurd h₂ (by simp)
        · rw [if_pos (by omega)]
    · by_cases hyx : y.toNat < x.toNat
      · rw [if_neg hxy, if_pos hyx] at h₁
        exact absurd h₁ (by simp)
      · rw [if_neg hxy, if_neg hyx] at h₁
        by_cases hyz : y.toNat < z.toNat
        · rw [if_pos (by omega)]
        · by_cases hzy : z.toNat < y.toNat
          · rw [if_neg hyz, if_pos hzy] at h₂
            exact absurd h₂ (by simp)
          · rw [if_neg hyz, if_neg hzy] at h₂
            rw [if_neg (by omega), if_neg (by omega)]
            exact listCharLe_trans h₁ h₂

theorem strLeB_refl (a : String) : strLeB a a = true :=
  listCharLe_refl a.data

theorem strLeB_total (a b : String) : strLeB a b = true ∨ strLeB b a = true :=
  listCharLe_total a.data b.data

theorem strLeB_antisymm {a b : String}
    (h₁ : strLeB a b = true) (h₂ : strLeB b a = true) : a = b := by
  cases a; cases b
  exact congrArg String.mk (listCharLe_antisymm h₁ h₂)

theorem strLeB_trans {a b c : String}
    (h₁ : strLeB a b = true) (h₂ : strLeB b c = true) : strLeB a c = true :=
  listCharLe_trans h₁ h₂

theorem mem_insertSorted {a x : String} {l : List String} :
    a ∈ insertSorted x l ↔ a = x ∨ a ∈ l := by
  induction l with
  | nil => simp [insertSorted]
  | cons y ys ih =>
    simp only [insertSorted]
    split
    · simp
    · simp only [List.mem_cons, ih]
      tauto

theorem pairwise_insertSorted {x : String} {l : List String}
    (h : l.Pairwise (fun a b => strLeB a b = true)) :
    (insertSorted x l).Pairwise (fun a b => strLeB a b = true) := by
  induction l with
  | nil => simp [insertSorted]
  | cons y ys ih =>
    rcases List.pairwise_cons.mp h with ⟨hy, hys⟩
    simp only [insertSorted]
    split
    case isTrue hxy =>
      refine List.pairwise_cons.mpr ⟨?_, h⟩
      intro b hb
      rcases List.mem_cons.mp hb with rfl | hb
      · exact hxy
      · exact strLeB_trans hxy (hy b hb)
    case isFalse hxy =>
      refine List.pairwise_cons.mpr ⟨?_, ih hys⟩
      intro b hb
      rcases mem_insertSorted.mp hb with rfl | hb
      · rcases strLeB_total y b with h' | h'
        · exact h'
        · simp_all
      · exact hy b hb

theorem nodup_insertSorted {x : String} {l : List String}
    (h : l.Nodup) (hx : x ∉ l) : (insertSorted x l).Nodup := by
  induction l with
  | nil => simp [insertSorted]
  | cons y ys ih =>
    rcases List.nodup_cons.mp h with ⟨hy, hys⟩
    simp only [insertSorted]
    split
    · exact List.nodup_cons.mpr ⟨by simp_all [List.mem_cons], h⟩
    · refine List.nodup_cons.mpr ⟨?_, ih hys (by simp_all)⟩
      rw [mem_insertSorted]
      rintro (rfl | hmem)
      · simp_all
      · exact hy hmem

theorem mem_sortStr {a : String} {l : List String} :
    a ∈ sortStr l ↔ a ∈ l := by
  induction l with
  | nil => simp [sortStr]
  | cons x xs ih =>
    simp only [sortStr, List.foldr_cons] at *
    rw [mem_insertSorted, ih, List.mem_cons]

theorem pairwise_sortStr (l : List String) :
    (sortStr l).Pairwise (fun a b => strLeB a b = true) := by
  induction l with
  | nil => simp [sortStr]
  | cons x xs ih => exact pairwise_insertSorted ih

theorem nodup_sortStr {l : List String} (h : l.Nodup) :
    (sortStr l).Nodup := by
  induction l with
  | nil => simp [sortStr]
  | cons x xs ih =>
    rcases List.nodup_cons.mp h with ⟨hx, hxs⟩
    exact nodup_insertSorted (ih hxs) (fun hc => hx (mem_sortStr.mp hc))

theorem mem_dedupFirstAux {a : String} :
    ∀ {l seen : List String}, a ∈ dedupFirstAux seen l ↔ a ∈ l ∧ a ∉ seen := by
  intro l
  induction l with
  | nil => simp [dedupFirstAux]
  | cons x xs ih =>
    intro seen
    simp only [dedupFirstAux]
    split
    case isTrue hx =>
      have hxs : x ∈ seen := by simpa using hx
      rw [ih]
      simp only [List.mem_cons]
      constructor
      · rintro ⟨h1, h2⟩; exact ⟨Or.inr h1, h2⟩
      · rintro ⟨h1 | h1, h2⟩
        · exact absurd (h1 ▸ hxs) h2
        · exact ⟨h1, h2⟩
    case isFalse hx =>
      have hxs : x ∉ seen := by simpa using hx
      simp only [List.mem_cons, ih, List.mem_append, List.mem_singleton]
      constructor
      · rintro (rfl | ⟨h1, h2⟩)
        · exact ⟨Or.inl rfl, hxs⟩
        · exact ⟨Or.inr h1, fun hc => h2 (Or.inl hc)⟩
      · rintro ⟨rfl | h1, h2⟩
        · exact Or.inl rfl
        · by_cases hax : a = x
          · exact Or.inl hax
          · exact Or.inr ⟨h1, by simp [h2, hax]⟩

theorem mem_dedupFirst {a : String} {l : List String} :
    a ∈ dedupFirst l ↔ a ∈ l := by
  simp [dedupFirst, mem_dedupFirstAux]

theorem nodup_dedupFirstAux :
    ∀ (l seen : List String), (dedupFirstAux seen l).Nodup := by
  intro l
  induction l with
  | nil => intro seen; simp [dedupFirstAux]
  | cons x xs ih =>
    intro seen
    simp only [dedupFirstAux]
    split
    · exact ih seen
    · refine List.nodup_cons.mpr ⟨?_, ih _⟩
      rw [mem_dedupFirstAux]
      rintro ⟨-, h2⟩
      simp at h2

theorem nodup_dedupFirst (l : List String) : (dedupFirst l).Nodup :=
  nodup_dedupFirstAux l []

theorem mem_sortedSet {a : String} {l : List String} :
    a ∈ sortedSet l ↔ a ∈ l := by
  rw [sortedSet, mem_sortStr, mem_dedupFirst]

theorem pairwise_sortedSet (l : List String) :
    (sortedSet l).Pairwise (fun a b => strLeB a b = true) :=
  pairwise_sortStr _

theorem nodup_sortedSet (l : List String) : (sortedSet l).Nodup :=
  nodup_sortStr (nodup_dedupFirst l)

/-- Two ascending, duplicate-free string lists with the same members are
equal. -/
theorem sortedLe_nodup_unique :
    ∀ {l₁ l₂ : List String},
      l₁.Pairwise (fun a b => strLeB a b = true) →
      l₂.Pairwise (fun a b => strLeB a b = true) →
      l₁.Nodup → l₂.Nodup → (∀ a, a ∈ l₁ ↔ a ∈ l₂) → l₁ = l₂
  | [], [], _, _, _, _, _ => rfl
  | [], y :: ys, _, _, _, _, hmem => by
    exact absurd ((hmem y).mpr (List.mem_cons_self y ys)) (List.not_mem_nil y)
  | x :: xs, [], _, _, _, _, hmem => by
    exact absurd ((hmem x).mp (List.mem_cons_self x xs)) (List.not_mem_nil x)
  | x :: xs, y :: ys, h₁, h₂, n₁, n₂, hmem => by
    rcases List.pairwise_cons.mp h₁ with ⟨hx, hxs⟩
    rcases List.pairwise_cons.mp h₂ with ⟨hy, hys⟩
    rcases List.nodup_cons.mp n₁ with ⟨nx, nxs⟩
    rcases List.nodup_cons.mp n₂ with ⟨ny, nys⟩
    have hxy : x = y := by
      have hx2 : x ∈ y :: ys := (hmem x).mp (List.mem_cons_self x xs)
      have hy1 : y ∈ x :: xs := (hmem y).mpr (List.mem_cons_self y ys)
      rcases List.mem_cons.mp hx2 with rfl | hx2
      · rfl
      · rcases List.mem_cons.mp hy1 with h' | hy1
        · exact h'.symm
        · exact strLeB_antisymm (hx y hy1) (hy x hx2)
    subst hxy
    have htails : ∀ a, a ∈ xs ↔ a ∈ ys := by
      intro a
      constructor
      · intro ha
        rcases List.mem_cons.mp ((hmem a).mp (List.mem_cons_of_mem x ha)) with rfl | h'
        · exact absurd ha nx
        · exact h'
      · intro ha
        rcases List.mem_cons.mp ((hmem a).mpr (List.mem_cons_of_mem x ha)) with rfl | h'
        · exact absurd ha ny
        · exact h'
    rw [sortedLe_nodup_unique hxs hys nxs nys htails]

/-- `sorted(set(.))` depends only on membership. -/
theorem sortedSet_ext {l₁ l₂ : List String}
    (h : ∀ a, a ∈ l₁ ↔ a ∈ l₂) : sortedSet l₁ = sortedSet l₂ :=
  sortedLe_nodup_unique (pairwise_sortedSet l₁) (pairwise_sortedSet l₂)
    (nodup_sortedSet l₁) (nodup_sortedSet l₂)
    (fun a => by rw [mem_sortedSet, mem_sortedSet]; exact h a)

/-! ## Membership preservation through the rule pipelines -/

theorem mem_ite_append {a : String} {l xs : List String} {c : Bool}
    (h : a ∈ l) : a ∈ (if c then l ++ xs else l) := by
  split
  · exact List.mem_append_left _ h
  · exact h

theorem mem_appIf {a : String} {c : Bool} {xs l : List String} (h : a ∈ l) :
    a ∈ appIf c xs l :=
  mem_ite_append h

theorem mem_ite3_append {a : String} {l : List String} {c₁ c₂ c₃ : Bool}
    {x₁ x₂ x₃ : List String} (h : a ∈ l) :
    a ∈ (if c₁ then l ++ x₁ else if c₂ then l ++ x₂ else if c₃ then l ++ x₃ else l) := by
  split
  · exact List.mem_append_left _ h
  split
  · exact List.mem_append_left _ h
  split
  · exact List.mem_append_left _ h
  exact h

theorem setuptools_mem_bs_setuptools_pip {drv_log : String} {opts : List String}
    (h : strContains drv_log "No module named 'setuptools'" = true) :
    "setuptools" ∈ bs_setuptools_pip drv_log opts := by
  unfold bs_setuptools_pip
  apply mem_ite_append
  split
  case isTrue => exact List.mem_append_right _ (by simp)
  case isFalse hcond =>
    have hc : opts.contains "setuptools" = true := by
      by_contra hcc
      apply hcond
      have hfalse : opts.contains "setuptools" = false := by
        cases hb : opts.contains "setuptools"
        · rfl
        · exact absurd hb hcc
      simp [h]
      simpa using hfalse
    simpa using hc

theorem setuptools_mem_bs_cythonize_failed {drv_log : String}
    {opts : List String} (h : "setuptools" ∈ opts) :
    "setuptools" ∈ bs_cythonize_failed drv_log opts := by
  unfold bs_cythonize_failed
  split
  · exact List.mem_append_left _ ((List.mem_erase_of_ne (by decide)).mpr h)
  · exact h

theorem setuptools_mem_bs_missing_deps {drv_log : String} {opts : List String}
    (h : "setuptools" ∈ opts) : "setuptools" ∈ bs_missing_deps drv_log opts := by
  simp only [bs_missing_deps]
  split
  · repeat first
      | exact h
      | apply mem_appIf
      | apply mem_ite3_append
  · exact h

theorem setuptools_mem_bs_module_hints {drv_log : String} {opts : List String}
    (h : "setuptools" ∈ opts) : "setuptools" ∈ bs_module_hints drv_log opts := by
  simp only [bs_module_hints]
  repeat first
    | exact h
    | apply mem_appIf
    | apply mem_ite_append

theorem setuptools_mem_bs_late_cython {drv_log : String} {opts : List String}
    (h : "setuptools" ∈ opts) : "setuptools" ∈ bs_late_cython drv_log opts := by
  unfold bs_late_cython
  repeat' split
  all_goals first | exact h | exact List.mem_append_left _ h

theorem setuptools_mem_bs_finalize {drv_log : String} {opts : List String}
    (h : "setuptools" ∈ opts) : "setuptools" ∈ bs_finalize drv_log opts := by
  simp only [bs_finalize]
  have base : "setuptools" ∈ sortedSet opts := mem_sortedSet.mpr h
  refine List.mem_filter.mpr ⟨?_, ?_⟩
  · apply mem_appIf
    apply mem_appIf
    split
    · split
      · refine List.mem_filter.mpr ⟨?_, ?_⟩
        · exact List.mem_append_left _
            ((List.mem_erase_of_ne (by decide)).mpr base)
        · decide
      · exact List.mem_append_left _
          ((List.mem_erase_of_ne (by decide)).mpr base)
    · split
      · refine List.mem_filter.mpr ⟨?_, ?_⟩
        · exact base
        · decide
      · exact base
  · decide

/-! ## Lemmas on the NativeBuildInputs scan and accumulation-key folds -/

theorem mem_foldl_nbi_step_mono {x : String} {drv_log : String} :
    ∀ (tbl : List (String × List String)) (acc : List String),
      x ∈ acc → x ∈ tbl.foldl (nbi_step drv_log) acc
  | [], _, h => h
  | _ :: tbl, acc, h =>
    mem_foldl_nbi_step_mono tbl _ (List.mem_append_left _ h)

theorem mem_foldl_nbi_step_hit {x : String} {drv_log q : String}
    {vs : List String} :
    ∀ (tbl : List (String × List String)) (acc : List String),
      (q, vs) ∈ tbl → strContains drv_log q = true →
      x ∈ vs.map (fun y => nix_literal (nbi_add_pkgs y)) →
      x ∈ tbl.foldl (nbi_step drv_log) acc
  | [], _, hin, _, _ => absurd hin (List.not_mem_nil _)
  | e :: tbl, acc, hin, hq, hx => by
    rcases List.mem_cons.mp hin with rfl | hin
    · simp only [List.foldl_cons]
      apply mem_foldl_nbi_step_mono
      unfold nbi_step
      simp only [hq, if_true]
      exact List.mem_append_right _ hx
    · exact mem_foldl_nbi_step_hit tbl _ hin hq hx

theorem foldl_nbi_step_eq_append {drv_log : String} :
    ∀ (tbl : List (String × List String)) (init : List String),
      tbl.foldl (nbi_step drv_log) init =
        init ++ tbl.foldl (nbi_step drv_log) []
  | [], init => by simp
  | e :: tbl, init => by
    simp only [List.foldl_cons]
    rw [foldl_nbi_step_eq_append tbl (nbi_step drv_log init e),
        foldl_nbi_step_eq_append tbl (nbi_step drv_log [] e)]
    simp [nbi_step]

theorem foldl_accumStep_inv (vss : List (List String)) :
    ∀ (acc : List String),
      acc.Pairwise (fun a b => strLeB a b = true) → acc.Nodup →
      (vss.foldl accumStep acc).Pairwise (fun a b => strLeB a b = true) ∧
      (vss.foldl accumStep acc).Nodup ∧
      (∀ x, x ∈ vss.foldl accumStep acc ↔ x ∈ acc ∨ ∃ vs ∈ vss, x ∈ vs) := by
  induction vss with
  | nil =>
    intro acc hs hn
    refine ⟨hs, hn, fun x => ?_⟩
    simp
  | cons vs vss ih =>
    intro acc _ _
    rcases ih (accumStep acc vs) (pairwise_sortedSet _) (nodup_sortedSet _) with
      ⟨hs, hn, hmem⟩
    refine ⟨hs, hn, fun x => ?_⟩
    rw [List.foldl_cons, hmem x]
    unfold accumStep
    rw [mem_sortedSet, List.mem_append]
    simp only [List.mem_cons]
    constructor
    · rintro ((h | h) | h)
      · exact Or.inl h
      · exact Or.inr ⟨vs, Or.inl rfl, h⟩
      · rcases h with ⟨vs', hvs', hx⟩
        exact Or.inr ⟨vs', Or.inr hvs', hx⟩
    · rintro (h | ⟨vs', hvs' | hvs', hx⟩)
      · exact Or.inl (Or.inl h)
      · exact Or.inl (Or.inr (hvs' ▸ hx))
      · exact Or.inr ⟨vs', hvs', hx⟩

/-! ## Loop classification and toml stability lemmas -/

/-- Every run of the retry loop terminates, and lands in one of: exhaustion of
the attempt bound, success, a stuck zero-change pass, a fatal ValueError
break, an exclusion, or an escaped exception. -/
theorem mainLoop_classified (g : List (String × String))
    (w : Nat → AttemptOutcome) :
    ∀ a, mainLoop g w a = .exhausted ∨
      ∃ k, a ≤ k ∧ k < max_trials ∧
        (mainLoop g w a = .success k ∨
         (mainLoop g w a = .stuck k ∧ w k = .finished false false) ∨
         mainLoop g w a = .fatal k ∨
         (∃ r, mainLoop g w a = .excluded r k) ∨
         (∃ m, mainLoop g w a = .raised m k)) := by
  have key : ∀ n a, max_trials - a ≤ n →
      (mainLoop g w a = .exhausted ∨
        ∃ k, a ≤ k ∧ k < max_trials ∧
          (mainLoop g w a = .success k ∨
           (mainLoop g w a = .stuck k ∧ w k = .finished false false) ∨
           mainLoop g w a = .fatal k ∨
           (∃ r, mainLoop g w a = .excluded r k) ∨
           (∃ m, mainLoop g w a = .raised m k))) := by
    intro n
    induction n with
    | zero =>
      intro a ha
      have hge : ¬ a < max_trials := by omega
      left
      rw [mainLoop]
      simp [hge]
    | succ n ih =>
      intro a ha
      by_cases hlt : a < max_trials
      · rcases hw : w a with _ | deps | r | _ | ⟨res, app⟩
        · by_cases h0 : a = 0
          · subst h0
            right
            refine ⟨0, le_refl 0, hlt, Or.inr (Or.inr (Or.inr (Or.inr
              ⟨try_fix_recursion_msg, ?_⟩)))⟩
            rw [mainLoop]
            simp [hlt, hw, try_to_fix_infinite_recursion]
          · right
            refine ⟨a, le_refl a, hlt, Or.inr (Or.inr (Or.inr (Or.inr
              ⟨"infinite recursion encountered", ?_⟩)))⟩
            rw [mainLoop]
            simp [hlt, hw, h0]
        · have hstep : mainLoop g w a = mainLoop g w (a + 1) := by
            conv_lhs => rw [mainLoop]
            simp [hlt, hw]
          rcases ih (a + 1) (by omega) with hex | ⟨k, hk1, hk2, hcase⟩
          · left; rw [hstep]; exact hex
          · right
            exact ⟨k, by omega, hk2, by rw [hstep]; exact hcase⟩
        · right
          refine ⟨a, le_refl a, hlt, Or.inr (Or.inr (Or.inr (Or.inl ⟨r, ?_⟩)))⟩
          rw [mainLoop]
          simp [hlt, hw]
        · right
          refine ⟨a, le_refl a, hlt, Or.inr (Or.inr (Or.inl ?_))⟩
          rw [mainLoop]
          simp [hlt, hw]
        · cases res
          · cases app
            · right
              refine ⟨a, le_refl a, hlt, Or.inr (Or.inl ⟨?_, hw⟩)⟩
              rw [mainLoop]
              simp [hlt, hw]
            · have hstep : mainLoop g w a = mainLoop g w (a + 1) := by
                conv_lhs => rw [mainLoop]
                simp [hlt, hw]
              rcases ih (a + 1) (by omega) with hex | ⟨k, hk1, hk2, hcase⟩
              · left; rw [hstep]; exact hex
              · right
                exact ⟨k, by omega, hk2, by rw [hstep]; exact hcase⟩
          · right
            refine ⟨a, le_refl a, hlt, Or.inl ?_⟩
            rw [mainLoop]
            simp [hlt, hw]
      · left
        rw [mainLoop]
        simp [hlt]
  intro a
  exact key max_trials a (Nat.sub_le _ _)

/-- A zero-change rule pass stops the loop at that very attempt. -/
theorem mainLoop_stuck_of_no_change (g : List (String × String))
    (w : Nat → AttemptOutcome) (a : Nat) (hlt : a < max_trials)
    (hw : w a = .finished false false) : mainLoop g w a = .stuck a := by
  rw [mainLoop]
  simp [hlt, hw]

theorem tomlPrimRoundTrip_stable {p : TomlPrim} (h : tomlPrimStable p = true) :
    tomlPrimRoundTrip p = p := by
  cases p
  · rfl
  · rfl
  · simp [tomlPrimStable] at h

theorem tomlValueRoundTrip_stable {v : OptionValue}
    (h : tomlValueStable v = true) : tomlValueRoundTrip v = v := by
  cases v with
  | prim p => rw [tomlValueRoundTrip, tomlPrimRoundTrip_stable h]
  | list xs =>
    simp only [tomlValueRoundTrip, tomlValueStable, List.all_eq_true] at *
    rw [List.map_congr_left (fun a ha => tomlPrimRoundTrip_stable (h a ha))]
    simp
  | dict m =>
    simp only [tomlValueRoundTrip, tomlValueStable, List.all_eq_true] at *
    rw [List.map_congr_left
      (fun kv hkv => by rw [tomlPrimRoundTrip_stable (h kv hkv)])]
    simp
  | pair a b => simp [tomlValueStable] at h

/-! ## Claim theorems -/

/-- C1 (counterexample): even with the lock graph holding exactly the cycle
P→Q→P, an unbounded-recursion signal on attempt 0 does not lead to a
cycle-breaking decision and attempt 1: `try_to_fix_infinite_recursion` raises
a ValueError unconditionally and the run aborts. -/
theorem claim_C1_counterexample :
    try_to_fix_infinite_recursion [("P", "Q"), ("Q", "P")] =
      .error try_fix_recursion_msg ∧
    mainLoop [("P", "Q"), ("Q", "P")] (fun _ => .infiniteRecursion) 0 =
      .raised try_fix_recursion_msg 0 := by
  constructor
  · rfl
  · rw [mainLoop]
    simp [try_to_fix_infinite_recursion, max_trials]

/-- C1 (amended): whenever attempt 0 hits the unbounded-recursion terminal
signal, the orchestrator calls `try_to_fix_infinite_recursion`, which raises
"Pyproject.nix builders should no longer suffer from infinite recursion"
regardless of the lock graph; the exception escapes the loop (it is raised
inside the `except InfiniteRecursionError` handler, past the inner
`except ValueError`), so the run ends without injecting any decision or
reaching attempt 1. -/
theorem claim_C1_recursion_raises (g : List (String × String))
    (w : Nat → AttemptOutcome) (h : w 0 = .infiniteRecursion) :
    mainLoop g w 0 = .raised try_fix_recursion_msg 0 := by
  rw [mainLoop]
  simp [h, try_to_fix_infinite_recursion, max_trials]

/-- C1 witness: the amended behaviour at a concrete world. -/
theorem claim_C1_witness :
    (fun _ => AttemptOutcome.infiniteRecursion) 0 =
      AttemptOutcome.infiniteRecursion ∧
    mainLoop [] (fun _ => .infiniteRecursion) 0 =
      .raised try_fix_recursion_msg 0 :=
  ⟨rfl, claim_C1_recursion_raises [] _ rfl⟩

/-- C5 (counterexample): a run whose first attempt raises the
invalid-generated-nix ValueError terminates in a fourth way - the
`except ValueError: break` path - with no success artifact, no reached
attempt bound, and no zero-change rule pass. -/
theorem claim_C5_counterexample :
    mainLoop [] (fun _ => .fatalValueError) 0 = .fatal 0 ∧
    isClaimedTermination (mainLoop [] (fun _ => .fatalValueError) 0) = false := by
  have h : mainLoop [] (fun _ => AttemptOutcome.fatalValueError) 0 = .fatal 0 := by
    rw [mainLoop]
    simp [max_trials]
  exact ⟨h, by rw [h]; rfl⟩

/-- C5 (amended): the retry loop always terminates, and it ends either by the
attempt bound (default 10), by success, by a full rule pass with zero changed
decisions - in which case it stops at that very attempt - or through one of
the terminal-signal paths (fatal ValueError break, exclusion, escaped
exception). -/
theorem claim_C5_termination (g : List (String × String))
    (w : Nat → AttemptOutcome) (a : Nat) :
    (mainLoop g w a = .exhausted ∨
      ∃ k, a ≤ k ∧ k < max_trials ∧
        (mainLoop g w a = .success k ∨
         (mainLoop g w a = .stuck k ∧ w k = .finished false false) ∨
         mainLoop g w a = .fatal k ∨
         (∃ r, mainLoop g w a = .excluded r k) ∨
         (∃ m, mainLoop g w a = .raised m k))) ∧
    (a < max_trials → w a = .finished false false → mainLoop g w a = .stuck a) :=
  ⟨mainLoop_classified g w a, fun h1 h2 => mainLoop_stuck_of_no_change g w a h1 h2⟩

/-- C5 witness: a world that never changes any rule decision stops stuck
within the very first pass. -/
theorem claim_C5_witness :
    0 < max_trials ∧
    (fun _ => AttemptOutcome.finished false false) 0 =
      AttemptOutcome.finished false false ∧
    mainLoop [] (fun _ => .finished false false) 0 = .stuck 0 :=
  ⟨by decide, rfl, (claim_C5_termination [] _ 0).2 (by decide) rfl⟩

/-- C9: rendering a literal-marked string emits the string unquoted, but the
path marker is nine characters while `nix_format` strips only eight
(`value[8:]`), so a path-marked string renders as `./:` followed by the
string - not the intended `./` - for every input (off-by-one slip; the
literal marker, eleven characters, is correctly stripped with
`value[11:]`). -/
theorem claim_C9_marker_rendering :
    (∀ s, nix_format_str (nix_literal s) = s) ∧
    (∀ s, nix_format_str (nix_path s) = "./:" ++ s) ∧
    nix_format_str (nix_path "Cargo.lock") ≠ "./" ++ "Cargo.lock" := by
  refine ⟨fun s => ?_, fun s => ?_, by decide⟩
  · unfold nix_format_str nix_literal strStartsWith strDrop
    simp only [String.data_append]
    have h1 : (("~path~:!:" : String).data).isPrefixOf
        (("~literal:!:" : String).data ++ s.data) = false := by
      simp [List.isPrefixOf]
    have h2 : (("~literal:!:" : String).data).isPrefixOf
        (("~literal:!:" : String).data ++ s.data) = true := by
      simp [List.isPrefixOf]
    rw [h1, h2]
    have h3 : (("~literal:!:" : String).data ++ s.data).drop 11 = s.data := by
      simp
    simp only [Bool.false_eq_true, if_false, if_true, h3]
  · unfold nix_format_str nix_path strStartsWith strDrop
    simp only [String.data_append]
    have h1 : (("~path~:!:" : String).data).isPrefixOf
        (("~path~:!:" : String).data ++ s.data) = true := by
      simp [List.isPrefixOf]
    rw [h1]
    have h3 : (("~path~:!:" : String).data ++ s.data).drop 8 = (':' : Char) :: s.data := by
      simp
    simp only [if_true, h3]
    cases s
    rfl

/-- C10: the failure map of `load_failures` never contains a derivation whose
store path mentions "test-venv", and contains exactly the other reported
failing store paths. -/
theorem claim_C10_test_venv_filter (raw d : String) :
    d ∈ load_failures_keys raw ↔
      d ∈ load_failure_drvs raw ∧ strContains d "test-venv" = false := by
  unfold load_failures_keys
  rw [mem_dedupFirst, List.mem_filter]
  simp

/-- C2 (counterexample): BuildInputs writes `env = {}` and HomlessShelter then
writes the different value `env = {HOME: /tmp}` for the same unit; the merge
succeeds and silently keeps the second writer's value instead of raising. -/
theorem claim_C2_counterexample :
    (BuildInputs_apply [nix_literal "pkgs.zlib.out"]).src_attrset_parts =
      [("buildInputs", .list [nix_literal "pkgs.zlib.out"]), ("env", .dict [])] ∧
    (write_combined_rules_core
        [.output (BuildInputs_apply [nix_literal "pkgs.zlib.out"]),
         .output HomlessShelter_apply]).map
      (fun s => assocGet s.src_attrset_parts "env") =
      .ok (some (.dict [("HOME", .str "/tmp")])) ∧
    (AttrValue.dict [("HOME", .str "/tmp")]) ≠ .dict [] := by
  refine ⟨by decide, by decide, by decide⟩

/-- C2 (amended): for a scalar/record key already written, the merge keeps the
first value when the second is equal and raises on a differing second value,
except that a dict value silently replaces a falsy (empty) stored value -
the `isinstance(v, dict) and not dest[k]` clause. -/
theorem claim_C2_scalar_merge (dest : List (String × AttrValue)) (k : String)
    (v w : AttrValue)
    (hk1 : ¬(k = "postPatch" ∨ k = "preBuild" ∨ k = "preConfigure"))
    (hk2 : ¬(k = "nativeBuildInputs" ∨ k = "buildInputs"))
    (hw : assocGet dest k = some w) :
    mergeOneAttr dest k v =
      if (isDict v && pyFalsy w) || pyEqAttr w v then .ok (assocSet dest k v)
      else .error (.valueError ("Think up a merge strategy for " ++ k)) := by
  unfold mergeOneAttr
  rw [if_neg hk1, if_neg hk2, hw]

/-- C2 witness: the amended rule at the empty-env instance. -/
theorem claim_C2_witness :
    ¬("env" = "postPatch" ∨ "env" = "preBuild" ∨ "env" = "preConfigure") ∧
    assocGet [("env", AttrValue.dict [])] "env" = some (.dict []) ∧
    mergeOneAttr [("env", AttrValue.dict [])] "env"
        (.dict [("HOME", .str "/tmp")]) =
      .ok [("env", AttrValue.dict [("HOME", .str "/tmp")])] := by
  refine ⟨by decide, rfl, ?_⟩
  rw [claim_C2_scalar_merge [("env", AttrValue.dict [])] "env"
    (.dict [("HOME", .str "/tmp")]) (.dict []) (by decide) (by decide) rfl]
  decide

/-- C3: merging two rule outputs that constrain the same dependency raises
the hard "Dep conflict" ValueError exactly when the constraint strings
differ; equal constraints are accepted, keeping the single entry. -/
theorem claim_C3_dep_conflict (c₁ c₂ : String) :
    write_combined_rules_core
      [.output { dep_constraints := some [("numpy", c₁)] },
       .output { dep_constraints := some [("numpy", c₂)] }] =
      if c₂ = c₁ then .ok { dep_constraints := [("numpy", c₂)] }
      else .error (.valueError "Dep conflict, think up a merge strategy") := by
  by_cases h : c₂ = c₁
  · subst h
    simp [write_combined_rules_core, applyOneRule, mergeAttrset,
      mergeDepConstraints, assocSet, setUpdate, List.foldlM, List.lookup,
      Bind.bind, Except.bind, pure, Except.pure]
  · have h' : ¬(c₁ = c₂) := fun e => h e.symm
    simp [write_combined_rules_core, applyOneRule, mergeAttrset,
      mergeDepConstraints, assocSet, setUpdate, List.foldlM, List.lookup,
      Bind.bind, Except.bind, pure, Except.pure, h, h']

/-- C8 (counterexample): a rule state holding the deferred-extraction marker
(the Rust rule's `(decided, extract_result)` tuple, here with a `None` extract
result) does not round-trip: the toml encoding returns it as a two-element
list with the None stringified. -/
theorem claim_C8_counterexample :
    rulesRoundTrip [("Rust", .pair (.str "maturin") .pyNone)] =
      [("Rust", .list [.str "maturin", .str "None"])] ∧
    rulesRoundTrip [("Rust", .pair (.str "maturin") .pyNone)] ≠
      [("Rust", .pair (.str "maturin") .pyNone)] := by
  refine ⟨by decide, by decide⟩

/-- C8 (amended): the persisted rule-state round trip is lossless for every
mapping whose values are strings (including literal/path marker strings),
booleans, lists and tables of those - but not for values carrying the
deferred-extraction pair or a Python None, which come back as a list /
the string "None". -/
theorem claim_C8_roundtrip_stable (state : List (String × OptionValue))
    (h : ∀ kv ∈ state, tomlValueStable kv.2 = true) :
    rulesRoundTrip state = state := by
  unfold rulesRoundTrip
  have hcong : ∀ kv ∈ state,
      (fun kv : String × OptionValue => (kv.1, tomlValueRoundTrip kv.2)) kv = id kv :=
    fun kv hkv => by simp [tomlValueRoundTrip_stable (h kv hkv)]
  rw [List.map_congr_left hcong, List.map_id]

/-- C8 witness: a concrete marker-free state, with a literal-marked string,
round-trips unchanged. -/
theorem claim_C8_witness :
    (∀ kv ∈ ([("BuildSystems", .list [.str "setuptools"]),
              ("ManualOverrides", .prim (.str "~literal:!:pkgs.x")),
              ("QTDontWrap", .prim (.bool true))] :
        List (String × OptionValue)), tomlValueStable kv.2 = true) ∧
    rulesRoundTrip [("BuildSystems", .list [.str "setuptools"]),
                    ("ManualOverrides", .prim (.str "~literal:!:pkgs.x")),
                    ("QTDontWrap", .prim (.bool true))] =
      [("BuildSystems", .list [.str "setuptools"]),
       ("ManualOverrides", .prim (.str "~literal:!:pkgs.x")),
       ("QTDontWrap", .prim (.bool true))] :=
  ⟨by decide, claim_C8_roundtrip_stable _ (by decide)⟩

/-- The zlib entry of the NativeBuildInputs pattern table. -/
theorem zlib_entry_mem_nbi_table :
    ("zlib.h: No such file or directory", ["zlib.dev", "pkg-config"]) ∈
      nbi_table := by
  decide

/-- C7: a failure text containing the zlib header error always puts both
`pkgs.zlib.dev` and `pkgs.pkg-config` (as nix literals) into the
NativeBuildInputs decision, and the accumulation-key merge
(`sorted(set(dest.get(k, []) + v))`, folded over all contributing rules)
yields exactly the ascending, duplicate-free union of the contributions. -/
theorem claim_C7_zlib_union :
    (∀ drv drv_log prior,
      strContains drv_log "zlib.h: No such file or directory" = true →
      nix_literal "pkgs.zlib.dev" ∈ NativeBuildInputs_match drv drv_log prior ∧
      nix_literal "pkgs.pkg-config" ∈ NativeBuildInputs_match drv drv_log prior) ∧
    (∀ vss : List (List String),
      (vss.foldl accumStep []).Pairwise (fun a b => strLeB a b = true) ∧
      (vss.foldl accumStep []).Nodup ∧
      (∀ x, x ∈ vss.foldl accumStep [] ↔ ∃ vs ∈ vss, x ∈ vs)) := by
  constructor
  · intro drv drv_log prior h
    constructor
    · unfold NativeBuildInputs_match
      rw [mem_sortedSet]
      exact mem_foldl_nbi_step_hit nbi_table _ zlib_entry_mem_nbi_table h
        (by decide)
    · unfold NativeBuildInputs_match
      rw [mem_sortedSet]
      exact mem_foldl_nbi_step_hit nbi_table _ zlib_entry_mem_nbi_table h
        (by decide)
  · intro vss
    rcases foldl_accumStep_inv vss [] (by simp) (by simp) with ⟨hs, hn, hmem⟩
    refine ⟨hs, hn, fun x => ?_⟩
    rw [hmem x]
    simp

/-- C7 witness: the zlib scenario at a concrete failure text. -/
theorem claim_C7_witness :
    strContains "In file included from src:1: zlib.h: No such file or directory"
      "zlib.h: No such file or directory" = true ∧
    nix_literal "pkgs.zlib.dev" ∈ NativeBuildInputs_match
      "/nix/store/q-pyzmq-26.0.drv"
      "In file included from src:1: zlib.h: No such file or directory" none ∧
    nix_literal "pkgs.pkg-config" ∈ NativeBuildInputs_match
      "/nix/store/q-pyzmq-26.0.drv"
      "In file included from src:1: zlib.h: No such file or directory" none := by
  refine ⟨by decide, ?_, ?_⟩
  · exact (claim_C7_zlib_union.1 _ _ none (by decide)).1
  · exact (claim_C7_zlib_union.1 _ _ none (by decide)).2

/-- C4 (counterexample): re-running `BuildSystems.match` on the unchanged
failure text "No such file or directory: 'cmake'" with the prior decision
`["cmake"]` returns `["cmake", "cmake"]` - the cmake hint is appended after
the sort/dedup step, so the second call differs from the prior value and
produces a spurious "changed" signal. -/
theorem claim_C4_counterexample :
    BuildSystems_match "/nix/store/aaaa-foo-1.0.drv"
      "No such file or directory: 'cmake'" false none none = ["cmake"] ∧
    BuildSystems_match "/nix/store/aaaa-foo-1.0.drv"
      "No such file or directory: 'cmake'" false none (some ["cmake"]) =
      ["cmake", "cmake"] ∧
    (["cmake", "cmake"] : List String) ≠ ["cmake"] := by
  refine ⟨by decide, by decide, by decide⟩

/-- C4 (amended): rules whose decision is canonicalised by a final
`sorted(set(...))` are stable - NativeBuildInputs re-run on an unchanged
failure text with its previous decision returns an equal value - but
BuildSystems is not (see the counterexample): its cmake/pybind11 appends
happen after its sort, and the cython escalation deliberately rewrites a
prior "cython" decision to "cython_0". -/
theorem claim_C4_nbi_match_stable (drv drv_log : String)
    (prior : Option (List String)) :
    NativeBuildInputs_match drv drv_log
        (some (NativeBuildInputs_match drv drv_log prior)) =
      NativeBuildInputs_match drv drv_log prior := by
  unfold NativeBuildInputs_match
  simp only [Option.getD_some]
  apply sortedLe_nodup_unique (pairwise_sortedSet _) (pairwise_sortedSet _)
    (nodup_sortedSet _) (nodup_sortedSet _)
  intro x
  rw [mem_sortedSet, mem_sortedSet,
    foldl_nbi_step_eq_append nbi_table
      (sortedSet (nbi_table.foldl (nbi_step drv_log) (prior.getD []))),
    foldl_nbi_step_eq_append nbi_table (prior.getD [])]
  simp only [List.mem_append, mem_sortedSet]
  constructor
  · rintro ((h | h) | h)
    exacts [Or.inl h, Or.inr h, Or.inr h]
  · rintro (h | h)
    exacts [Or.inl (Or.inl h), Or.inl (Or.inr h)]

/-- C6 (counterexample): for the unit that is the `setuptools` package itself,
a failure text containing "No module named 'setuptools'" with no prior
decision yields an empty decision list - line 199 of rules.py removes the
package's own name - so the decision does not include "setuptools". -/
theorem claim_C6_counterexample :
    BuildSystems_match "/nix/store/abc123-setuptools-75.1.0.drv"
      "ModuleNotFoundError: No module named 'setuptools'" false none none = [] ∧
    "setuptools" ∉ BuildSystems_match "/nix/store/abc123-setuptools-75.1.0.drv"
      "ModuleNotFoundError: No module named 'setuptools'" false none none := by
  refine ⟨by decide, by decide⟩

/-- C6 (amended): for every failing unit whose failure text contains
"No module named 'setuptools'", whose package name is not itself
"setuptools", and which has no prior build-system decision, the BuildSystems
decision includes "setuptools" - for any release date and any (or no)
pyproject.toml build requires. -/
theorem claim_C6_setuptools (drv drv_log : String) (relOld : Bool)
    (pyproject : Option (List String))
    (hlog : strContains drv_log "No module named 'setuptools'" = true)
    (hpkg : (drv_to_pkg_and_version drv).1 ≠ "setuptools") :
    "setuptools" ∈ BuildSystems_match drv drv_log relOld pyproject none := by
  simp only [BuildSystems_match]
  apply setuptools_mem_bs_finalize
  apply setuptools_mem_bs_late_cython
  unfold bs_drop_self
  refine List.mem_filter.mpr ⟨?_, ?_⟩
  · apply setuptools_mem_bs_module_hints
    apply setuptools_mem_bs_missing_deps
    apply setuptools_mem_bs_cythonize_failed
    exact setuptools_mem_bs_setuptools_pip hlog
  · exact decide_eq_true (fun e => hpkg e.symm)

/-- C6 witness: the amended statement at a concrete unit and text. -/
theorem claim_C6_witness :
    strContains "ModuleNotFoundError: No module named 'setuptools'"
      "No module named 'setuptools'" = true ∧
    (drv_to_pkg_and_version "/nix/store/abc-foo-1.0.drv").1 ≠ "setuptools" ∧
    "setuptools" ∈ BuildSystems_match "/nix/store/abc-foo-1.0.drv"
      "ModuleNotFoundError: No module named 'setuptools'" false none none :=
  ⟨by decide, by decide,
    claim_C6_setuptools _ _ false none (by decide) (by decide)⟩
